import Mathlib

/-!
A verification development for the paper-bridge cleaner
(`paper_bridge/cleaner/src/aws_helpers.py`, `paper_bridge/cleaner/src/cleaner.py`).

The property-graph store is modelled as finite lists of vertex ids per label
together with lists of directed edges per relationship type, exactly the schema
the cleaner's Gremlin queries assume:
  Chunk --EXTRACTED_FROM--> Source,
  Topic --MENTIONED_IN--> Chunk,
  Statement --BELONGS_TO--> Topic,
  Fact --SUPPORTS--> Statement,
  Fact --SUBJECT/OBJECT--> Entity.
Each Gremlin traversal in the source is translated step by step into a function
over this model (bag semantics: one list element per traverser; `dedup`, `count`,
`filter`, `union`, `in`, `out` as in TinkerPop).
-/

namespace PaperBridge

/-- The document graph: one id list per vertex label, one pair list per edge
label (edge `(a, b)` is directed `a → b`), and the two Source properties the
cleaner queries (`paper_id`, `base_date`). -/
structure Graph where
  sources : List Nat
  chunks : List Nat
  topics : List Nat
  statements : List Nat
  facts : List Nat
  entities : List Nat
  paper_id : Nat → String
  base_date : Nat → String
  extractedFrom : List (Nat × Nat)
  mentionedIn : List (Nat × Nat)
  belongsTo : List (Nat × Nat)
  supports : List (Nat × Nat)
  subjEdges : List (Nat × Nat)
  objEdges : List (Nat × Nat)

/-- Gremlin `in('E')` at one vertex: sources of E-edges pointing into `v`. -/
def inNbrs (edges : List (Nat × Nat)) (v : Nat) : List Nat :=
  (edges.filter (fun e => e.2 == v)).map Prod.fst

/-- Gremlin `out('E')` at one vertex: targets of E-edges leaving `v`. -/
def outNbrs (edges : List (Nat × Nat)) (v : Nat) : List Nat :=
  (edges.filter (fun e => e.1 == v)).map Prod.snd

/-- Gremlin `.in('E').hasLabel('L')` applied to a stream of traversers. -/
def stepIn (edges : List (Nat × Nat)) (lbl : List Nat) (cur : List Nat) : List Nat :=
  cur.flatMap (fun v => (inNbrs edges v).filter (fun u => lbl.contains u))

/-- `g.V().has('__Source__', 'paper_id', pid)`. -/
def sourceV (g : Graph) (pid : String) : List Nat :=
  g.sources.filter (fun v => g.paper_id v == pid)

/-- `.in('__EXTRACTED_FROM__').hasLabel('__Chunk__')` from the document's Source. -/
def docChunks (g : Graph) (pid : String) : List Nat :=
  stepIn g.extractedFrom g.chunks (sourceV g pid)

/-- `.in('__MENTIONED_IN__').hasLabel('__Topic__')` continuing the chain. -/
def docTopics (g : Graph) (pid : String) : List Nat :=
  stepIn g.mentionedIn g.topics (docChunks g pid)

/-- `.in('__BELONGS_TO__').hasLabel('__Statement__')` continuing the chain. -/
def docStatements (g : Graph) (pid : String) : List Nat :=
  stepIn g.belongsTo g.statements (docTopics g pid)

/-- The `.dedup()` applied to the statement stream in every delete query. -/
def docStatementsD (g : Graph) (pid : String) : List Nat :=
  (docStatements g pid).dedup

/-- `.in('__SUPPORTS__').hasLabel('__Fact__')` from the deduplicated statements
(one traverser per SUPPORTS edge whose target is a reached statement). -/
def reachedFacts (g : Graph) (pid : String) : List Nat :=
  stepIn g.supports g.facts (docStatementsD g pid)

/-- `.union(__.out('__SUBJECT__'), __.out('__OBJECT__')).hasLabel('__Entity__')`
at one fact. -/
def factEnts (g : Graph) (f : Nat) : List Nat :=
  (outNbrs g.subjEdges f ++ outNbrs g.objEdges f).filter (fun u => g.entities.contains u)

/-- The inner ownership trace of the exclusivity filter, as written in the
source: from a statement, `__.in('__BELONGS_TO__').in('__MENTIONED_IN__')
.in('__EXTRACTED_FROM__').has('__Source__', 'paper_id', pid)`.  Note the
source uses `in` steps here although the schema directs these edges out of a
Statement. -/
def ownTrace (g : Graph) (pid : String) (u : Nat) : List Nat :=
  ((((inNbrs g.belongsTo u).flatMap (inNbrs g.mentionedIn)).flatMap
      (inNbrs g.extractedFrom)).filter
    (fun v => g.sources.contains v && g.paper_id v == pid))

/-- The fact exclusivity filter:
`filter(__.out('__SUPPORTS__').filter(<ownTrace>).count().is(__.out('__SUPPORTS__').count()))`. -/
def exclFilter (g : Graph) (pid : String) (f : Nat) : Bool :=
  ((outNbrs g.supports f).filter (fun u => !(ownTrace g pid u).isEmpty)).length
    == (outNbrs g.supports f).length

/-- `__.in('__SUBJECT__', '__OBJECT__').count()` at an entity: its graph-wide
subject/object fan-in. -/
def fanIn (g : Graph) (u : Nat) : Nat :=
  ((g.subjEdges ++ g.objEdges).filter (fun e => e.2 == u)).length

/-- The traversal of `delete_queries['entities']` up to `.drop()` (its
`count()` twin counts this same list). -/
def entitiesDelTrav (g : Graph) (pid : String) : List Nat :=
  ((((reachedFacts g pid).filter (exclFilter g pid)).flatMap (factEnts g)).filter
      (fun u => fanIn g u == 1)).dedup

/-- The traversal of `delete_queries['facts']` up to `.drop()`. -/
def factsDelTrav (g : Graph) (pid : String) : List Nat :=
  ((reachedFacts g pid).filter (exclFilter g pid)).dedup

/-- The traversal of `delete_queries['statements']` up to `.drop()`. -/
def statementsDelTrav (g : Graph) (pid : String) : List Nat :=
  docStatementsD g pid

/-- The traversal of `delete_queries['topics']` up to `.drop()` (no dedup in
the source query). -/
def topicsDelTrav (g : Graph) (pid : String) : List Nat :=
  docTopics g pid

/-- The traversal of `delete_queries['chunks']` up to `.drop()`. -/
def chunksDelTrav (g : Graph) (pid : String) : List Nat :=
  docChunks g pid

/-- The traversal of `delete_queries['source']` up to `.drop()`. -/
def sourceDelTrav (g : Graph) (pid : String) : List Nat :=
  sourceV g pid

/-- The `connected_facts` touch-stat query: distinct Facts reachable from the
document's subgraph. -/
def connectedFacts (g : Graph) (pid : String) : Nat :=
  ((stepIn g.supports g.facts (docStatements g pid)).dedup).length

/-- The `connected_entities` touch-stat query: distinct Entities reachable
from the document's subgraph. -/
def connectedEntities (g : Graph) (pid : String) : Nat :=
  (((stepIn g.supports g.facts (docStatements g pid)).flatMap (factEnts g)).dedup).length

/-- Gremlin `.drop()` of a set of vertices: the vertices leave every label
class and every incident edge is removed. -/
def Graph.dropVs (g : Graph) (vs : List Nat) : Graph where
  sources := g.sources.filter (fun v => !(vs.contains v))
  chunks := g.chunks.filter (fun v => !(vs.contains v))
  topics := g.topics.filter (fun v => !(vs.contains v))
  statements := g.statements.filter (fun v => !(vs.contains v))
  facts := g.facts.filter (fun v => !(vs.contains v))
  entities := g.entities.filter (fun v => !(vs.contains v))
  paper_id := g.paper_id
  base_date := g.base_date
  extractedFrom := g.extractedFrom.filter (fun e => !(vs.contains e.1) && !(vs.contains e.2))
  mentionedIn := g.mentionedIn.filter (fun e => !(vs.contains e.1) && !(vs.contains e.2))
  belongsTo := g.belongsTo.filter (fun e => !(vs.contains e.1) && !(vs.contains e.2))
  supports := g.supports.filter (fun e => !(vs.contains e.1) && !(vs.contains e.2))
  subjEdges := g.subjEdges.filter (fun e => !(vs.contains e.1) && !(vs.contains e.2))
  objEdges := g.objEdges.filter (fun e => !(vs.contains e.1) && !(vs.contains e.2))

/-- `re.match(r"^\d{4}-\d{2}-\d{2}$", s)` on the character list of `s`.
Python's `$` also matches just before one trailing newline, so that case is
included; `\d` is modelled as an ASCII decimal digit (Python's `\d` on `str`
additionally admits other Unicode decimal digits, which no claim exercises). -/
def matchDatePattern : List Char → Bool
  | y1 :: y2 :: y3 :: y4 :: h1 :: m1 :: m2 :: h2 :: d1 :: d2 :: rest =>
      y1.isDigit && y2.isDigit && y3.isDigit && y4.isDigit && (h1 == '-') &&
      m1.isDigit && m2.isDigit && (h2 == '-') && d1.isDigit && d2.isDigit &&
      (rest == ([] : List Char) || rest == ['\n'])
  | _ => false

/-- Specification-side shape of a string the date regex accepts: four digits,
a hyphen, two digits, a hyphen, two digits, then nothing or one newline. -/
def dateShapeSpec (cs : List Char) : Prop :=
  ∃ y1 y2 y3 y4 m1 m2 d1 d2 tl,
    cs = y1 :: y2 :: y3 :: y4 :: '-' :: m1 :: m2 :: '-' :: d1 :: d2 :: tl ∧
    (tl = [] ∨ tl = ['\n']) ∧
    y1.isDigit ∧ y2.isDigit ∧ y3.isDigit ∧ y4.isDigit ∧
    m1.isDigit ∧ m2.isDigit ∧ d1.isDigit ∧ d2.isDigit

/-- `_is_valid_date_format` (identical in `NeptuneClient` and
`OpenSearchClient`): empty strings are rejected, otherwise the regex decides. -/
def isValidDateFormat (s : String) : Bool :=
  if s = "" then false else matchDatePattern s.data

/-- Lexicographic strict order on strings by character code, as the graph and
search stores compare the `YYYY-MM-DD` date strings embedded in queries. -/
def lexLt : List Char → List Char → Bool
  | [], [] => false
  | [], _ :: _ => true
  | _ :: _, [] => false
  | a :: as, b :: bs =>
      if a.toNat < b.toNat then true
      else if b.toNat < a.toNat then false
      else lexLt as bs

/-- Strict lexicographic `<` on strings. -/
def strLt (a b : String) : Bool :=
  lexLt a.data b.data

/-- Lexicographic `≤` on strings. -/
def strLe (a b : String) : Bool :=
  !(strLt b a)

/-- `NeptuneClient._find_paper_ids_by_date`:
`g.V().hasLabel('__Source__').has('base_date', d).values('paper_id').dedup().fold()`,
after validating the date (`none` models the raised `ValueError`). -/
def neptuneFindByDate (g : Graph) (d : String) : Option (List String) :=
  if isValidDateFormat d then
    some (((g.sources.filter (fun v => g.base_date v == d)).map g.paper_id).dedup)
  else none

/-- The vertices matched by Gremlin `between(s, e)` on `base_date`: TinkerPop
`P.between` is `gte(s).and(lt(e))`, inclusive start, exclusive end. -/
def betweenIds (g : Graph) (s e : String) : List String :=
  ((g.sources.filter (fun v => strLe s (g.base_date v) && strLt (g.base_date v) e)).map
    g.paper_id).dedup

/-- `NeptuneClient._find_paper_ids_by_date_range`:
`g.V().hasLabel('__Source__').has('base_date', between(s, e)).values('paper_id').dedup().fold()`
after validating both dates. -/
def neptuneFindByDateRange (g : Graph) (s e : String) : Option (List String) :=
  if isValidDateFormat s && isValidDateFormat e then some (betweenIds g s e)
  else none

/-- The per-document deletion counts of `NeptuneClient.delete_document`
(`results` keyed by tier) together with the `shared_nodes` pair.  The
`shared_nodes` values are Python ints, hence `Int`. -/
structure DeletionReport where
  paper_id : String
  entities : Nat
  facts : Nat
  statements : Nat
  topics : Nat
  chunks : Nat
  source : Nat
  shared_facts : Int
  shared_entities : Int
deriving DecidableEq, Repr

/-- A touch-stat value: the count, or the string `"Error"` recorded when the
stat query failed. -/
inductive StatVal where
  | num (n : Nat)
  | errS
deriving DecidableEq, Repr

/-- Outcome of one `delete_document` call: the mutated store, the tiers whose
`.drop()` query was actually submitted (in submission order), and either the
returned report or the propagated Python exception. -/
structure DelStep where
  graph : Graph
  drops : List String
  outcome : Except String DeletionReport

/-- One tier of the deletion loop applied to the store: the count query runs
the delete query's own traversal, and the `.drop()` is submitted only when the
count is positive. -/
def tierDrop (g : Graph) (t : List Nat) : Graph :=
  if 0 < t.length then g.dropVs t else g

/-- The store after the `entities` tier of `delete_document`. -/
def delG1 (g : Graph) (pid : String) : Graph :=
  tierDrop g (entitiesDelTrav g pid)

/-- The store after the `facts` tier. -/
def delG2 (g : Graph) (pid : String) : Graph :=
  tierDrop (delG1 g pid) (factsDelTrav (delG1 g pid) pid)

/-- The store after the `statements` tier. -/
def delG3 (g : Graph) (pid : String) : Graph :=
  tierDrop (delG2 g pid) (statementsDelTrav (delG2 g pid) pid)

/-- The store after the `topics` tier. -/
def delG4 (g : Graph) (pid : String) : Graph :=
  tierDrop (delG3 g pid) (topicsDelTrav (delG3 g pid) pid)

/-- The store after the `chunks` tier. -/
def delG5 (g : Graph) (pid : String) : Graph :=
  tierDrop (delG4 g pid) (chunksDelTrav (delG4 g pid) pid)

/-- The store after the `source` tier, i.e. after all six tiers. -/
def delG6 (g : Graph) (pid : String) : Graph :=
  tierDrop (delG5 g pid) (sourceDelTrav (delG5 g pid) pid)

/-- The `entities` tier count of `delete_document` (count query = delete
query's traversal). -/
def delCount1 (g0 : Graph) (pid : String) : Nat := (entitiesDelTrav g0 pid).length

/-- The `facts` tier count, taken on the store the `entities` tier left. -/
def delCount2 (g0 : Graph) (pid : String) : Nat := (factsDelTrav (delG1 g0 pid) pid).length

/-- The `statements` tier count. -/
def delCount3 (g0 : Graph) (pid : String) : Nat :=
  (statementsDelTrav (delG2 g0 pid) pid).length

/-- The `topics` tier count. -/
def delCount4 (g0 : Graph) (pid : String) : Nat := (topicsDelTrav (delG3 g0 pid) pid).length

/-- The `chunks` tier count. -/
def delCount5 (g0 : Graph) (pid : String) : Nat := (chunksDelTrav (delG4 g0 pid) pid).length

/-- The `source` tier count. -/
def delCount6 (g0 : Graph) (pid : String) : Nat := (sourceDelTrav (delG5 g0 pid) pid).length

/-- The tiers whose `.drop()` query `delete_document` actually submits, in
submission order: exactly those whose count query came back positive. -/
def delDrops (g0 : Graph) (pid : String) : List String :=
  (if 0 < delCount1 g0 pid then ["entities"] else []) ++
  (if 0 < delCount2 g0 pid then ["facts"] else []) ++
  (if 0 < delCount3 g0 pid then ["statements"] else []) ++
  (if 0 < delCount4 g0 pid then ["topics"] else []) ++
  (if 0 < delCount5 g0 pid then ["chunks"] else []) ++
  (if 0 < delCount6 g0 pid then ["source"] else [])

/-- The value `delete_document` returns (or the exception it raises) once the
six tiers ran: building `shared_nodes` subtracts the deleted counts from the
touch stats, and when a stat was recorded as the string `"Error"` Python's
`str - int` raises `TypeError`, which the outer handler re-raises. -/
def deleteOutcome (g0 : Graph) (pid : String) (failF failE : Bool) :
    Except String DeletionReport :=
  match (if failF then StatVal.errS else .num (connectedFacts g0 pid)),
      (if failE then StatVal.errS else .num (connectedEntities g0 pid)) with
  | .num nf, .num ne =>
      .ok
        { paper_id := pid
          entities := delCount1 g0 pid, facts := delCount2 g0 pid
          statements := delCount3 g0 pid, topics := delCount4 g0 pid
          chunks := delCount5 g0 pid, source := delCount6 g0 pid
          shared_facts := (nf : Int) - delCount2 g0 pid
          shared_entities := (ne : Int) - delCount1 g0 pid }
  | _, _ => .error "TypeError: unsupported operand types for -: str and int"

/-- `NeptuneClient.delete_document`.  `failF`/`failE` inject a failure of the
`connected_facts`/`connected_entities` touch-stat query (the only remote calls
whose failure the method tolerates); a failed stat is recorded as the string
`"Error"`.  Each tier counts with the delete query's own filter, submits the
drop only when the count is positive, and later tiers run against the mutated
store; the empty paper id raises `ValueError` before any query. -/
def deleteDocument (g0 : Graph) (pid : String) (failF failE : Bool) : DelStep :=
  if pid = "" then ⟨g0, [], .error "ValueError: 'paper_id' must not be empty"⟩
  else ⟨delG6 g0 pid, delDrops g0 pid, deleteOutcome g0 pid failF failE⟩

/-- One entry of a batch deletion result list: the per-document success dict
or the `{status: "error", paper_id, error}` dict built from a caught
exception. -/
inductive BatchEntry where
  | ok (r : DeletionReport)
  | err (paper_id error : String)
deriving DecidableEq, Repr

/-- The entry `batch_delete_documents` appends for one id, given the outcome
of `delete_document` on it. -/
def mkBatchEntry (pid : String) : Except String DeletionReport → BatchEntry
  | .ok r => .ok r
  | .error e => .err pid e

/-- `NeptuneClient.batch_delete_documents`: sequentially deletes each id on
the current store state; an exception from one id is caught and recorded,
and the loop continues. -/
def batchDeleteDocuments (failF failE : Bool) : Graph → List String → Graph × List BatchEntry
  | g, [] => (g, [])
  | g, pid :: rest =>
      let step := deleteDocument g pid failF failE
      let tail := batchDeleteDocuments failF failE step.graph rest
      (tail.1, mkBatchEntry pid step.outcome :: tail.2)

/-- Whether a batch entry is a success dict (`result.get("status") == "success"`;
`delete_document` success dicts carry `status: "success"`). -/
def BatchEntry.isSuccess : BatchEntry → Bool
  | .ok _ => true
  | .err _ _ => false

/-- `summarize_deletion_results` minus the `**context` keys:
`(total_documents, deleted_count, error_count)` over a result list. -/
def summarizeCounts (results : List BatchEntry) : Nat × Nat × Nat :=
  (results.length, results.countP BatchEntry.isSuccess,
    results.length - results.countP BatchEntry.isSuccess)

/-- Result of `NeptuneClient.delete_documents_by_date_range`: the zero-deletion
short circuit when no ids match, or the summary dict over the batch results. -/
inductive RangeOutcome where
  | noDocs (date_range : String)
  | completed (total deleted errors : Nat) (details : List BatchEntry) (date_range : String)
deriving DecidableEq, Repr

/-- `NeptuneClient.delete_documents_by_date_range`: validate both dates
(`none` models the raised `ValueError`), resolve ids via `between`, short
circuit when none match, else batch-delete and summarize. -/
def neptuneDeleteByDateRange (g : Graph) (failF failE : Bool) (s e : String) :
    Option RangeOutcome :=
  if isValidDateFormat s && isValidDateFormat e then
    let ids := betweenIds g s e
    if ids.isEmpty then some (.noDocs (s ++ " to " ++ e))
    else
      let (_, entries) := batchDeleteDocuments failF failE g ids
      let (tot, del, errs) := summarizeCounts entries
      some (.completed tot del errs entries (s ++ " to " ++ e))
  else none

/-- `NeptuneClient.delete_documents_by_date`: same shape keyed on exact
`base_date` equality. -/
def neptuneDeleteByDate (g : Graph) (failF failE : Bool) (d : String) :
    Option RangeOutcome :=
  if isValidDateFormat d then
    let ids := ((g.sources.filter (fun v => g.base_date v == d)).map g.paper_id).dedup
    if ids.isEmpty then some (.noDocs d)
    else
      let (_, entries) := batchDeleteDocuments failF failE g ids
      let (tot, del, errs) := summarizeCounts entries
      some (.completed tot del errs entries d)
  else none

/-- The dict returned by `OpenSearchClient.delete_document`: the no-match
branch (no `total` key), the success branch, or the error dict built by the
outer exception handler. -/
inductive OSDelOutcome where
  | noDocs (paper_id : String)
  | success (paper_id : String) (deleted total : Nat)
  | errorDict (paper_id error : String)
deriving DecidableEq, Repr

/-- `OpenSearchClient.delete_document`.  `search` abstracts the index search
for record ids matching the paper id (`Except.error` is a raised transport or
query exception); `delRec` tells whether deleting one record id succeeds (a
per-record failure is caught inside the loop and only logged).  Only the empty
paper id escapes as an exception; every other failure becomes the error
dict. -/
def osDeleteDocument (search : Except String (List String)) (delRec : String → Bool)
    (pid : String) : Except String OSDelOutcome :=
  if pid = "" then .error "ValueError: 'paper_id' must not be empty"
  else
    match search with
    | .error e => .ok (.errorDict pid e)
    | .ok docIds =>
        if docIds.isEmpty then .ok (.noDocs pid)
        else .ok (.success pid (docIds.countP delRec) docIds.length)

/-- One entry of `OpenSearchClient.batch_delete_documents`' result list. -/
inductive OSBatchEntry where
  | ok (r : OSDelOutcome)
  | err (paper_id error : String)
deriving DecidableEq, Repr

/-- `OpenSearchClient.batch_delete_documents`: one entry per id; a raised
exception is caught and recorded as an error entry, and iteration continues.
`dd` abstracts `self.delete_document`. -/
def osBatchDeleteDocuments (dd : String → Except String OSDelOutcome)
    (ids : List String) : List OSBatchEntry :=
  if ids.isEmpty then []
  else ids.map (fun pid =>
    match dd pid with
    | .ok r => OSBatchEntry.ok r
    | .error e => OSBatchEntry.err pid e)

/-- A record of the search index as the cleaner reads it: its record id, the
nested `metadata.source.metadata.paper_id` field (absent records are skipped
with a warning), and the nested `base_date` field. -/
structure OSRecord where
  rid : String
  rpid : Option String
  rdate : String

/-- `OpenSearchClient._find_paper_ids_by_date_range`: validates both dates,
probes index existence (missing index gives an empty list), then keeps records
whose `base_date` satisfies the range query `gte: s, lte: e` (both inclusive),
extracts the paper ids that are present, and passes them through `list(set(...))`
(modelled as `dedup`; only membership is relied upon). -/
def osFindByDateRange (indexExists : Bool) (recs : List OSRecord) (s e : String) :
    Option (List String) :=
  if isValidDateFormat s && isValidDateFormat e then
    if !indexExists then some []
    else some (((recs.filter (fun r => strLe s r.rdate && strLe r.rdate e)).filterMap
      OSRecord.rpid).dedup)
  else none

/-- The per-index entry the orchestrator records: the index's own range
deletion result, or the error dict `{status: "error", error: msg}` built from
a caught exception. -/
inductive IdxEntry (α : Type) where
  | ok (r : α)
  | err (error : String)
deriving DecidableEq, Repr

/-- The dict returned by `Cleaner.delete_documents_by_date_range`. -/
structure CleanerResult (α : Type) where
  neptune : RangeOutcome
  opensearch : List (String × IdxEntry α)
  date_range : String
deriving DecidableEq, Repr

/-- The entry recorded for one index given the outcome of its range
deletion. -/
def mkIdxEntry {α : Type} (idx : String) : Except String α → IdxEntry α
  | .ok r => .ok r
  | .error msg =>
      .err ("Error deleting documents from OpenSearch index '" ++ idx ++ "': " ++ msg)

/-- `Cleaner.delete_documents_by_date_range`: `end_date` defaults to
`start_date`; the Neptune range deletion runs first (its `ValueError` on an
invalid date propagates, modelled by `none`); then each configured index's
range deletion runs independently, a raised exception being caught and
recorded for that index alone; the payload carries the Neptune result, one
entry per index, and the `"start to end"` string.  `osRun` abstracts
`self.opensearch_clients[index].delete_documents_by_date_range(start, end)`. -/
def cleanerDeleteByDateRange {α : Type} (g : Graph) (failF failE : Bool)
    (osRun : String → Except String α) (indexes : List String)
    (s : String) (e? : Option String) : Option (CleanerResult α) :=
  let e := match e? with | none => s | some x => x
  match neptuneDeleteByDateRange g failF failE s e with
  | none => none
  | some nep =>
      some { neptune := nep
             opensearch := indexes.map (fun idx => (idx, mkIdxEntry idx (osRun idx)))
             date_range := s ++ " to " ++ e }

/-- Every edge of `es` runs from a vertex of `A` to a vertex of `B`. -/
def EdgesBetween (es : List (Nat × Nat)) (A B : List Nat) : Prop :=
  ∀ p ∈ es, p.1 ∈ A ∧ p.2 ∈ B

/-- The two label classes have no vertex in common. -/
def NoOverlap (A B : List Nat) : Prop :=
  ∀ a ∈ A, a ∉ B

/-- The graph schema of the data model (spec §3), which the ingestion pipeline
produces: each relationship connects the right label classes and the six label
classes are pairwise disjoint. -/
def WellFormed (g : Graph) : Prop :=
  EdgesBetween g.extractedFrom g.chunks g.sources ∧
  EdgesBetween g.mentionedIn g.topics g.chunks ∧
  EdgesBetween g.belongsTo g.statements g.topics ∧
  EdgesBetween g.supports g.facts g.statements ∧
  EdgesBetween g.subjEdges g.facts g.entities ∧
  EdgesBetween g.objEdges g.facts g.entities ∧
  NoOverlap g.sources g.chunks ∧ NoOverlap g.sources g.topics ∧
  NoOverlap g.sources g.statements ∧ NoOverlap g.sources g.facts ∧
  NoOverlap g.sources g.entities ∧ NoOverlap g.chunks g.topics ∧
  NoOverlap g.chunks g.statements ∧ NoOverlap g.chunks g.facts ∧
  NoOverlap g.chunks g.entities ∧ NoOverlap g.topics g.statements ∧
  NoOverlap g.topics g.facts ∧ NoOverlap g.topics g.entities ∧
  NoOverlap g.statements g.facts ∧ NoOverlap g.statements g.entities ∧
  NoOverlap g.facts g.entities

instance (es : List (Nat × Nat)) (A B : List Nat) : Decidable (EdgesBetween es A B) :=
  List.decidableBAll _ es

instance (A B : List Nat) : Decidable (NoOverlap A B) :=
  List.decidableBAll _ A

instance (g : Graph) : Decidable (WellFormed g) := by
  unfold WellFormed; infer_instance

instance {ε α : Type} [DecidableEq ε] [DecidableEq α] : DecidableEq (Except ε α) := fun a b =>
  match a, b with
  | .ok x, .ok y => decidable_of_iff (x = y) (by simp)
  | .error x, .error y => decidable_of_iff (x = y) (by simp)
  | .ok _, .error _ => isFalse (by simp)
  | .error _, .ok _ => isFalse (by simp)

/-- Specification-side predicate (spec §3): a Statement `u` belongs to
document `pid` when its Statement→Topic→Chunk→Source chain, followed in the
edges' own direction, reaches the document's Source. -/
def tracesToDoc (g : Graph) (pid : String) (u : Nat) : Bool :=
  (((outNbrs g.belongsTo u).flatMap (outNbrs g.mentionedIn)).flatMap
      (outNbrs g.extractedFrom)).any
    (fun v => g.sources.contains v && g.paper_id v == pid)

/-- Specification-side count: how many of the Statements supported by fact `f`
belong to document `pid`. -/
def ownedStatementCount (g : Graph) (pid : String) (f : Nat) : Nat :=
  ((outNbrs g.supports f).filter (tracesToDoc g pid)).length

/-- Specification-side count: how many Statements fact `f` supports in the
whole graph. -/
def totalStatementCount (g : Graph) (f : Nat) : Nat :=
  (outNbrs g.supports f).length

/-- A fully exclusive single-document graph: Source 1 (`"p1"`,
`base_date "2024-01-01"`) ← Chunk 3 ← Topic 5 ← Statement 7 ← Fact 9, with
Fact 9 → Entity 10 as subject.  Entity 10 has fan-in 1 and every node is
owned by `"p1"` alone. -/
def exclusiveG : Graph where
  sources := [1]
  chunks := [3]
  topics := [5]
  statements := [7]
  facts := [9]
  entities := [10]
  paper_id := fun v => if v == 1 then "p1" else ""
  base_date := fun v => if v == 1 then "2024-01-01" else ""
  extractedFrom := [(3, 1)]
  mentionedIn := [(5, 3)]
  belongsTo := [(7, 5)]
  supports := [(9, 7)]
  subjEdges := [(9, 10)]
  objEdges := []

/-- A two-document graph with sharing: Sources 1 (`"p1"`) and 2 (`"p2"`);
Fact 9 supports Statement 7 (of `"p1"`) and Statement 8 (of `"p2"`), so it is
shared; Fact 11 supports only Statement 8.  Entity 10 is subject of both
facts (fan-in 2, shared); Entity 12 is object of the shared Fact 9 alone
(fan-in 1). -/
def sharedG : Graph where
  sources := [1, 2]
  chunks := [3, 4]
  topics := [5, 6]
  statements := [7, 8]
  facts := [9, 11]
  entities := [10, 12]
  paper_id := fun v => if v == 1 then "p1" else if v == 2 then "p2" else ""
  base_date := fun v => if v == 1 then "2024-01-01" else if v == 2 then "2024-01-02" else ""
  extractedFrom := [(3, 1), (4, 2)]
  mentionedIn := [(5, 3), (6, 4)]
  belongsTo := [(7, 5), (8, 6)]
  supports := [(9, 7), (9, 8), (11, 8)]
  subjEdges := [(9, 10), (11, 10)]
  objEdges := [(9, 12)]

theorem mem_inNbrs {edges : List (Nat × Nat)} {v u : Nat} :
    u ∈ inNbrs edges v ↔ (u, v) ∈ edges := by
  simp only [inNbrs, List.mem_map, List.mem_filter, beq_iff_eq]
  constructor
  · rintro ⟨⟨a, b⟩, ⟨hm, hv⟩, rfl⟩
    simp only at hv
    subst hv
    exact hm
  · intro h
    exact ⟨(u, v), ⟨h, rfl⟩, rfl⟩

theorem mem_outNbrs {edges : List (Nat × Nat)} {v u : Nat} :
    u ∈ outNbrs edges v ↔ (v, u) ∈ edges := by
  simp only [outNbrs, List.mem_map, List.mem_filter, beq_iff_eq]
  constructor
  · rintro ⟨⟨a, b⟩, ⟨hm, hv⟩, rfl⟩
    simp only at hv
    subst hv
    exact hm
  · intro h
    exact ⟨(v, u), ⟨h, rfl⟩, rfl⟩

theorem mem_stepIn {edges : List (Nat × Nat)} {lbl cur : List Nat} {u : Nat} :
    u ∈ stepIn edges lbl cur ↔ ∃ v ∈ cur, (u, v) ∈ edges ∧ u ∈ lbl := by
  simp only [stepIn, List.mem_flatMap, List.mem_filter, mem_inNbrs, List.elem_iff]

theorem inNbrs_belongsTo_eq_nil {g : Graph}
    (hBT : EdgesBetween g.belongsTo g.statements g.topics)
    (hST : NoOverlap g.statements g.topics) {u : Nat} (hu : u ∈ g.statements) :
    inNbrs g.belongsTo u = [] := by
  have hfil : g.belongsTo.filter (fun e => e.2 == u) = [] := by
    rw [List.filter_eq_nil_iff]
    intro p hp
    simp only [beq_iff_eq]
    intro h
    exact hST u hu (h ▸ (hBT p hp).2)
  simp [inNbrs, hfil]

theorem ownTrace_eq_nil {g : Graph}
    (hBT : EdgesBetween g.belongsTo g.statements g.topics)
    (hST : NoOverlap g.statements g.topics) {pid : String} {u : Nat}
    (hu : u ∈ g.statements) :
    ownTrace g pid u = [] := by
  simp [ownTrace, inNbrs_belongsTo_eq_nil hBT hST hu]

theorem exclFilter_eq_false {g : Graph}
    (hSup : EdgesBetween g.supports g.facts g.statements)
    (hBT : EdgesBetween g.belongsTo g.statements g.topics)
    (hST : NoOverlap g.statements g.topics) {pid : String} {f : Nat}
    (hf : outNbrs g.supports f ≠ []) :
    exclFilter g pid f = false := by
  unfold exclFilter
  have hfilter : (outNbrs g.supports f).filter (fun u => !(ownTrace g pid u).isEmpty) = [] := by
    rw [List.filter_eq_nil_iff]
    intro u hu
    have hu' : (f, u) ∈ g.supports := mem_outNbrs.mp hu
    simp [ownTrace_eq_nil hBT hST (hSup _ hu').2]
  rw [hfilter]
  simp only [List.length_nil]
  rw [beq_eq_false_iff_ne]
  intro h
  exact hf (List.length_eq_zero.mp h.symm)

theorem reachedFiltered_eq_nil {g : Graph}
    (hSup : EdgesBetween g.supports g.facts g.statements)
    (hBT : EdgesBetween g.belongsTo g.statements g.topics)
    (hST : NoOverlap g.statements g.topics) (pid : String) :
    (reachedFacts g pid).filter (exclFilter g pid) = [] := by
  rw [List.filter_eq_nil_iff]
  intro f hf
  obtain ⟨s, _, hfs, _⟩ := mem_stepIn.mp hf
  have hmem : s ∈ outNbrs g.supports f := mem_outNbrs.mpr hfs
  have hne : outNbrs g.supports f ≠ [] := by
    intro hnil
    rw [hnil] at hmem
    exact List.not_mem_nil s hmem
  simp [exclFilter_eq_false hSup hBT hST hne]

theorem factsDelTrav_eq_nil {g : Graph}
    (hSup : EdgesBetween g.supports g.facts g.statements)
    (hBT : EdgesBetween g.belongsTo g.statements g.topics)
    (hST : NoOverlap g.statements g.topics) (pid : String) :
    factsDelTrav g pid = [] := by
  unfold factsDelTrav
  rw [reachedFiltered_eq_nil hSup hBT hST pid]
  rfl

theorem entitiesDelTrav_eq_nil {g : Graph}
    (hSup : EdgesBetween g.supports g.facts g.statements)
    (hBT : EdgesBetween g.belongsTo g.statements g.topics)
    (hST : NoOverlap g.statements g.topics) (pid : String) :
    entitiesDelTrav g pid = [] := by
  unfold entitiesDelTrav
  rw [reachedFiltered_eq_nil hSup hBT hST pid]
  rfl

theorem tierDrop_mem_entities {g : Graph} {t : List Nat} {e : Nat}
    (he : e ∈ g.entities) (hnot : e ∉ t) : e ∈ (tierDrop g t).entities := by
  unfold tierDrop
  split
  · simp [Graph.dropVs, List.mem_filter, he, List.elem_iff, hnot]
  · exact he

theorem tierDrop_sources_subset (g : Graph) (t : List Nat) :
    (tierDrop g t).sources ⊆ g.sources := by
  unfold tierDrop
  split
  · exact List.filter_subset' _
  · exact fun _ h => h

theorem tierDrop_chunks_subset (g : Graph) (t : List Nat) :
    (tierDrop g t).chunks ⊆ g.chunks := by
  unfold tierDrop
  split
  · exact List.filter_subset' _
  · exact fun _ h => h

theorem tierDrop_topics_subset (g : Graph) (t : List Nat) :
    (tierDrop g t).topics ⊆ g.topics := by
  unfold tierDrop
  split
  · exact List.filter_subset' _
  · exact fun _ h => h

theorem tierDrop_statements_subset (g : Graph) (t : List Nat) :
    (tierDrop g t).statements ⊆ g.statements := by
  unfold tierDrop
  split
  · exact List.filter_subset' _
  · exact fun _ h => h

theorem tierDrop_facts_subset (g : Graph) (t : List Nat) :
    (tierDrop g t).facts ⊆ g.facts := by
  unfold tierDrop
  split
  · exact List.filter_subset' _
  · exact fun _ h => h

theorem delG1_facts_subset (g : Graph) (pid : String) :
    (delG1 g pid).facts ⊆ g.facts :=
  tierDrop_facts_subset g _

theorem delG2_statements_subset (g : Graph) (pid : String) :
    (delG2 g pid).statements ⊆ g.statements := by
  unfold delG2 delG1
  exact (tierDrop_statements_subset _ _).trans (tierDrop_statements_subset _ _)

theorem delG3_topics_subset (g : Graph) (pid : String) :
    (delG3 g pid).topics ⊆ g.topics := by
  unfold delG3 delG2 delG1
  exact (tierDrop_topics_subset _ _).trans
    ((tierDrop_topics_subset _ _).trans (tierDrop_topics_subset _ _))

theorem delG4_chunks_subset (g : Graph) (pid : String) :
    (delG4 g pid).chunks ⊆ g.chunks := by
  unfold delG4 delG3 delG2 delG1
  exact (tierDrop_chunks_subset _ _).trans ((tierDrop_chunks_subset _ _).trans
    ((tierDrop_chunks_subset _ _).trans (tierDrop_chunks_subset _ _)))

theorem delG5_sources_subset (g : Graph) (pid : String) :
    (delG5 g pid).sources ⊆ g.sources := by
  unfold delG5 delG4 delG3 delG2 delG1
  exact (tierDrop_sources_subset _ _).trans ((tierDrop_sources_subset _ _).trans
    ((tierDrop_sources_subset _ _).trans ((tierDrop_sources_subset _ _).trans
      (tierDrop_sources_subset _ _))))

theorem factsDelTrav_subset (g : Graph) (pid : String) :
    factsDelTrav g pid ⊆ g.facts := by
  intro x hx
  unfold factsDelTrav at hx
  rw [List.mem_dedup] at hx
  obtain ⟨_, _, _, hlbl⟩ := mem_stepIn.mp (List.mem_filter.mp hx).1
  exact hlbl

theorem statementsDelTrav_subset (g : Graph) (pid : String) :
    statementsDelTrav g pid ⊆ g.statements := by
  intro x hx
  unfold statementsDelTrav docStatementsD at hx
  rw [List.mem_dedup] at hx
  obtain ⟨_, _, _, hlbl⟩ := mem_stepIn.mp hx
  exact hlbl

theorem topicsDelTrav_subset (g : Graph) (pid : String) :
    topicsDelTrav g pid ⊆ g.topics := by
  intro x hx
  obtain ⟨_, _, _, hlbl⟩ := mem_stepIn.mp hx
  exact hlbl

theorem chunksDelTrav_subset (g : Graph) (pid : String) :
    chunksDelTrav g pid ⊆ g.chunks := by
  intro x hx
  obtain ⟨_, _, _, hlbl⟩ := mem_stepIn.mp hx
  exact hlbl

theorem sourceDelTrav_subset (g : Graph) (pid : String) :
    sourceDelTrav g pid ⊆ g.sources :=
  List.filter_subset' _

theorem mem_entitiesDelTrav_fanIn {g : Graph} {pid : String} {e : Nat}
    (h : e ∈ entitiesDelTrav g pid) : fanIn g e = 1 := by
  unfold entitiesDelTrav at h
  rw [List.mem_dedup] at h
  exact beq_iff_eq.mp (List.mem_filter.mp h).2

theorem deleteDocument_graph_cases (g : Graph) (pid : String) (failF failE : Bool) :
    (deleteDocument g pid failF failE).graph = g ∨
      (deleteDocument g pid failF failE).graph = delG6 g pid := by
  by_cases h : pid = ""
  · left
    simp [deleteDocument, h]
  · right
    simp [deleteDocument, h]

theorem noOverlap_mono {A B A' B' : List Nat} (hA : A' ⊆ A) (hB : B' ⊆ B)
    (h : NoOverlap A B) : NoOverlap A' B' :=
  fun a ha hb => h a (hA ha) (hB hb)

theorem edgesBetween_filter (es : List (Nat × Nat)) (A B vs : List Nat)
    (h : EdgesBetween es A B) :
    EdgesBetween (es.filter (fun e => !(vs.contains e.1) && !(vs.contains e.2)))
      (A.filter (fun v => !(vs.contains v))) (B.filter (fun v => !(vs.contains v))) := by
  intro p hp
  rw [List.mem_filter] at hp
  obtain ⟨hmem, hcond⟩ := hp
  obtain ⟨h1, h2⟩ := h p hmem
  simp only [Bool.and_eq_true] at hcond
  constructor <;> rw [List.mem_filter]
  · exact ⟨h1, hcond.1⟩
  · exact ⟨h2, hcond.2⟩

theorem tierDrop_mem_facts {g : Graph} {t : List Nat} {f : Nat}
    (hf : f ∈ g.facts) (hnot : f ∉ t) : f ∈ (tierDrop g t).facts := by
  unfold tierDrop
  split
  · simp [Graph.dropVs, List.mem_filter, hf, List.elem_iff, hnot]
  · exact hf

theorem tierDrop_supports_wf (g : Graph) (t : List Nat)
    (h : EdgesBetween g.supports g.facts g.statements) :
    EdgesBetween (tierDrop g t).supports (tierDrop g t).facts (tierDrop g t).statements := by
  unfold tierDrop
  split
  · exact edgesBetween_filter g.supports g.facts g.statements t h
  · exact h

theorem tierDrop_belongsTo_wf (g : Graph) (t : List Nat)
    (h : EdgesBetween g.belongsTo g.statements g.topics) :
    EdgesBetween (tierDrop g t).belongsTo (tierDrop g t).statements (tierDrop g t).topics := by
  unfold tierDrop
  split
  · exact edgesBetween_filter g.belongsTo g.statements g.topics t h
  · exact h

theorem entitiesDelTrav_subset (g : Graph) (pid : String) :
    entitiesDelTrav g pid ⊆ g.entities := by
  intro x hx
  unfold entitiesDelTrav at hx
  rw [List.mem_dedup] at hx
  have hx' := (List.mem_filter.mp hx).1
  rw [List.mem_flatMap] at hx'
  obtain ⟨fct, _, hmem⟩ := hx'
  unfold factEnts at hmem
  have hcont := (List.mem_filter.mp hmem).2
  simpa [List.elem_iff] using hcont

theorem noOverlap_symm {A B : List Nat} (h : NoOverlap A B) : NoOverlap B A :=
  fun b hb ha => h b ha hb

theorem matchDatePattern_iff (cs : List Char) :
    matchDatePattern cs = true ↔ dateShapeSpec cs := by
  constructor
  · intro h
    rcases cs with _ | ⟨y1, _ | ⟨y2, _ | ⟨y3, _ | ⟨y4, _ | ⟨h1, _ | ⟨m1, _ | ⟨m2, _ | ⟨h2, _ | ⟨d1, _ | ⟨d2, rest⟩⟩⟩⟩⟩⟩⟩⟩⟩⟩ <;>
      simp [matchDatePattern] at h
    obtain ⟨⟨⟨⟨⟨⟨⟨⟨⟨⟨hy1, hy2⟩, hy3⟩, hy4⟩, rfl⟩, hm1⟩, hm2⟩, rfl⟩, hd1⟩, hd2⟩, hrest⟩ := h
    exact ⟨y1, y2, y3, y4, m1, m2, d1, d2, rest, rfl, hrest, hy1, hy2, hy3, hy4, hm1, hm2, hd1, hd2⟩
  · rintro ⟨y1, y2, y3, y4, m1, m2, d1, d2, tl, rfl, htl, hy1, hy2, hy3, hy4, hm1, hm2, hd1, hd2⟩
    rcases htl with rfl | rfl <;>
      simp [matchDatePattern, hy1, hy2, hy3, hy4, hm1, hm2, hd1, hd2]

theorem isValidDateFormat_iff_shape (s : String) :
    isValidDateFormat s = true ↔ dateShapeSpec s.data := by
  rw [← matchDatePattern_iff]
  unfold isValidDateFormat
  split
  · subst s
    simp [matchDatePattern]
  · rfl

/-- C1: for every document id `pid` and every Entity `e` with graph-wide
subject/object fan-in greater than 1 (an Entity referenced by Facts belonging
to at least two distinct documents), `NeptuneClient.delete_document(pid)` does
not remove `e` from the graph: `e` is still an Entity vertex of the store the
call leaves behind, whatever the touch-stat outcomes. -/
theorem C1_shared_entity_not_removed (g : Graph) (pid : String) (failF failE : Bool)
    (e : Nat) (hWF : WellFormed g) (hent : e ∈ g.entities) (hfan : 1 < fanIn g e) :
    e ∈ ((deleteDocument g pid failF failE).graph).entities := by
  obtain ⟨_, _, _, _, _, _, _, _, _, _, hSE, _, _, _, hCE, _, _, hTE, _, hStE, hFE⟩ := hWF
  have h1 : e ∈ (delG1 g pid).entities := by
    unfold delG1
    apply tierDrop_mem_entities hent
    intro hmem
    rw [mem_entitiesDelTrav_fanIn hmem] at hfan
    exact lt_irrefl 1 hfan
  have h2 : e ∈ (delG2 g pid).entities := by
    unfold delG2
    apply tierDrop_mem_entities h1
    intro hmem
    exact hFE e (delG1_facts_subset g pid (factsDelTrav_subset _ _ hmem)) hent
  have h3 : e ∈ (delG3 g pid).entities := by
    unfold delG3
    apply tierDrop_mem_entities h2
    intro hmem
    exact hStE e (delG2_statements_subset g pid (statementsDelTrav_subset _ _ hmem)) hent
  have h4 : e ∈ (delG4 g pid).entities := by
    unfold delG4
    apply tierDrop_mem_entities h3
    intro hmem
    exact hTE e (delG3_topics_subset g pid (topicsDelTrav_subset _ _ hmem)) hent
  have h5 : e ∈ (delG5 g pid).entities := by
    unfold delG5
    apply tierDrop_mem_entities h4
    intro hmem
    exact hCE e (delG4_chunks_subset g pid (chunksDelTrav_subset _ _ hmem)) hent
  have h6 : e ∈ (delG6 g pid).entities := by
    unfold delG6
    apply tierDrop_mem_entities h5
    intro hmem
    exact hSE e (delG5_sources_subset g pid (sourceDelTrav_subset _ _ hmem)) hent
  rcases deleteDocument_graph_cases g pid failF failE with h | h <;> rw [h]
  · exact hent
  · exact h6

/-- Witness for C1: in `sharedG`, Entity 10 is referenced by Facts of both
documents (fan-in 2) and survives `delete_document("p1")`. -/
theorem C1_shared_entity_not_removed_witness :
    WellFormed sharedG ∧ 10 ∈ sharedG.entities ∧ 1 < fanIn sharedG 10 ∧
      10 ∈ ((deleteDocument sharedG "p1" false false).graph).entities :=
  ⟨by decide, by decide, by decide,
    C1_shared_entity_not_removed sharedG "p1" false false 10 (by decide) (by decide)
      (by decide)⟩

/-- C2 restated: for every document id `pid`, a Fact `f` that supports a
Statement belonging to a different document is not removed from the graph by
`NeptuneClient.delete_document(pid)` — `f` is still a Fact vertex of the store
the call leaves behind, whatever the touch-stat outcomes — and a Fact is
removed at the facts tier (which runs on the store the entities tier left)
only when the count of its supported Statements owned by `pid` equals the
count of all Statements it supports. -/
theorem C2_shared_fact_survives (g : Graph) (pid : String) (failF failE : Bool)
    (f s : Nat) (hWF : WellFormed g) (hfact : f ∈ g.facts)
    (_hsup : (f, s) ∈ g.supports)
    (_hother : ∃ t c v, (s, t) ∈ g.belongsTo ∧ (t, c) ∈ g.mentionedIn ∧
      (c, v) ∈ g.extractedFrom ∧ v ∈ g.sources ∧ g.paper_id v ≠ pid) :
    f ∈ ((deleteDocument g pid failF failE).graph).facts ∧
      ∀ f' ∈ factsDelTrav (delG1 g pid) pid,
        ownedStatementCount (delG1 g pid) pid f' =
          totalStatementCount (delG1 g pid) f' := by
  obtain ⟨_, _, hBT, hSup, _, _, _, _, _, hSF, _, _, _, hCF, _, hTSt, hTF, _, hStF, _, hFE⟩ := hWF
  have hSup1 : EdgesBetween (delG1 g pid).supports (delG1 g pid).facts
      (delG1 g pid).statements := by
    unfold delG1
    exact tierDrop_supports_wf _ _ hSup
  have hBT1 : EdgesBetween (delG1 g pid).belongsTo (delG1 g pid).statements
      (delG1 g pid).topics := by
    unfold delG1
    exact tierDrop_belongsTo_wf _ _ hBT
  have hST1 : NoOverlap (delG1 g pid).statements (delG1 g pid).topics := by
    unfold delG1
    exact noOverlap_mono (tierDrop_statements_subset _ _) (tierDrop_topics_subset _ _)
      (noOverlap_symm hTSt)
  have hfnil : factsDelTrav (delG1 g pid) pid = [] :=
    factsDelTrav_eq_nil hSup1 hBT1 hST1 pid
  have h1 : f ∈ (delG1 g pid).facts := by
    unfold delG1
    apply tierDrop_mem_facts hfact
    intro hmem
    exact hFE f hfact (entitiesDelTrav_subset _ _ hmem)
  have h2 : f ∈ (delG2 g pid).facts := by
    unfold delG2
    apply tierDrop_mem_facts h1
    rw [hfnil]
    exact List.not_mem_nil f
  have h3 : f ∈ (delG3 g pid).facts := by
    unfold delG3
    apply tierDrop_mem_facts h2
    intro hmem
    exact hStF f (delG2_statements_subset g pid (statementsDelTrav_subset _ _ hmem)) hfact
  have h4 : f ∈ (delG4 g pid).facts := by
    unfold delG4
    apply tierDrop_mem_facts h3
    intro hmem
    exact hTF f (delG3_topics_subset g pid (topicsDelTrav_subset _ _ hmem)) hfact
  have h5 : f ∈ (delG5 g pid).facts := by
    unfold delG5
    apply tierDrop_mem_facts h4
    intro hmem
    exact hCF f (delG4_chunks_subset g pid (chunksDelTrav_subset _ _ hmem)) hfact
  have h6 : f ∈ (delG6 g pid).facts := by
    unfold delG6
    apply tierDrop_mem_facts h5
    intro hmem
    exact hSF f (delG5_sources_subset g pid (sourceDelTrav_subset _ _ hmem)) hfact
  constructor
  · rcases deleteDocument_graph_cases g pid failF failE with h | h <;> rw [h]
    · exact hfact
    · exact h6
  · intro f' hf'
    rw [hfnil] at hf'
    exact absurd hf' (List.not_mem_nil f')

/-- Witness for the restated C2: in `sharedG`, Fact 9 supports Statement 8 of
document `"p2"` and is still a Fact vertex of the store
`delete_document("p1")` leaves behind. -/
theorem C2_shared_fact_survives_witness :
    WellFormed sharedG ∧ 9 ∈ sharedG.facts ∧ (9, 8) ∈ sharedG.supports ∧
      sharedG.paper_id 2 ≠ "p1" ∧
      9 ∈ ((deleteDocument sharedG "p1" false false).graph).facts :=
  ⟨by decide, by decide, by decide, by decide,
    (C2_shared_fact_survives sharedG "p1" false false 9 8 (by decide) (by decide)
      (by decide) ⟨6, 4, 2, by decide, by decide, by decide, by decide, by decide⟩).1⟩

/-- C3 evidence: the Neptune date-range resolver uses Gremlin
`between(start, end)`, which is inclusive-start but exclusive-end, so with
A = B = "2024-01-01" it returns no ids although `exclusiveG`'s Source 1 has
exactly that `base_date` (the single-date resolver finds it, and the range
deletion short-circuits to a no-document result); the OpenSearch range
resolver (`gte`/`lte`) is end-inclusive. -/
theorem C3_neptune_range_excludes_end_date :
    neptuneFindByDateRange exclusiveG "2024-01-01" "2024-01-01" = some [] ∧
      1 ∈ exclusiveG.sources ∧ exclusiveG.base_date 1 = "2024-01-01" ∧
      neptuneFindByDate exclusiveG "2024-01-01" = some ["p1"] ∧
      neptuneDeleteByDateRange exclusiveG false false "2024-01-01" "2024-01-01" =
        some (.noDocs "2024-01-01 to 2024-01-01") ∧
      osFindByDateRange true [⟨"r1", some "p1", "2024-01-01"⟩]
        "2024-01-01" "2024-01-01" = some ["p1"] := by
  refine ⟨by decide, by decide, by decide, by decide, by decide, by decide⟩

/-- C4 evidence: in `exclusiveG`, Entity 10 is reachable from document
`"p1"`'s subgraph and has graph-wide fan-in 1, yet the entities tier deletes
nothing: the ownership trace inside the exclusivity filter walks
BELONGS_TO/MENTIONED_IN/EXTRACTED_FROM with `in` steps although the schema
directs those edges out of a Statement, so Fact 9 — exclusive to `"p1"` by
the specification's own count comparison — fails the filter and no Entity is
ever reached. -/
theorem C4_reachable_exclusive_entity_not_deleted :
    10 ∈ (stepIn exclusiveG.supports exclusiveG.facts
        (docStatements exclusiveG "p1")).flatMap (factEnts exclusiveG) ∧
      fanIn exclusiveG 10 = 1 ∧
      entitiesDelTrav exclusiveG "p1" = [] ∧
      connectedEntities exclusiveG "p1" = 1 ∧
      exclFilter exclusiveG "p1" 9 = false ∧
      ownedStatementCount exclusiveG "p1" 9 = totalStatementCount exclusiveG 9 := by
  refine ⟨by decide, by decide, by decide, by decide, by decide, by decide⟩

/-- C6 evidence: with the `connected_facts` touch-stat query failing on
`exclusiveG`, `delete_document("p1")` still runs every deletion tier
(statements, topics, chunks and source are dropped) but then raises
`TypeError` while building `shared_nodes` — the stat was recorded as the
string `"Error"` and Python's `str - int` raises — instead of returning the
success report it produces when the stat succeeds. -/
theorem C6_stat_failure_raises_type_error :
    (deleteDocument exclusiveG "p1" true false).outcome =
        Except.error "TypeError: unsupported operand types for -: str and int" ∧
      (deleteDocument exclusiveG "p1" true false).drops =
        ["statements", "topics", "chunks", "source"] ∧
      (deleteDocument exclusiveG "p1" false false).outcome =
        Except.ok
          { paper_id := "p1", entities := 0, facts := 0, statements := 1
            topics := 1, chunks := 1, source := 1, shared_facts := 1
            shared_entities := 1 } := by
  refine ⟨by decide, by decide, by decide⟩

/-- C5 counterexample: the date validator accepts `"2024-13-40"`, which the
claim says it rejects — the regex checks shape only, not calendar ranges. -/
theorem C5_counterexample_accepts_13_40 :
    isValidDateFormat "2024-13-40" = true := by decide

/-- C5 (amended): the validator accepts exactly the strings shaped
digit⁴-digit²-digit², optionally followed by one trailing newline (Python
`re.match` with `$`); it accepts `"2024-01-01"` and `"2024-13-40"`, rejects
`"Jan 1 2024"` and `""`, and every modelled date-taking operation raises a
validation error on a rejected string. -/
theorem C5_date_validator_shape_only :
    (∀ s : String, isValidDateFormat s = true ↔ dateShapeSpec s.data) ∧
      isValidDateFormat "2024-01-01" = true ∧
      isValidDateFormat "2024-13-40" = true ∧
      isValidDateFormat "Jan 1 2024" = false ∧
      isValidDateFormat "" = false ∧
      (∀ (g : Graph) (s e : String), isValidDateFormat s = false →
        neptuneFindByDateRange g s e = none ∧
          neptuneDeleteByDateRange g false false s e = none ∧
          neptuneFindByDate g s = none ∧ neptuneDeleteByDate g false false s = none) ∧
      (∀ (g : Graph) (s e : String), isValidDateFormat e = false →
        neptuneFindByDateRange g s e = none ∧
          neptuneDeleteByDateRange g false false s e = none) ∧
      (∀ (ex : Bool) (recs : List OSRecord) (s e : String),
        isValidDateFormat s = false → osFindByDateRange ex recs s e = none) := by
  refine ⟨isValidDateFormat_iff_shape, by decide, by decide, by decide, by decide, ?_, ?_, ?_⟩
  · intro g s e h
    refine ⟨?_, ?_, ?_, ?_⟩ <;>
      simp [neptuneFindByDateRange, neptuneDeleteByDateRange, neptuneFindByDate,
        neptuneDeleteByDate, h]
  · intro g s e h
    constructor <;> simp [neptuneFindByDateRange, neptuneDeleteByDateRange, h]
  · intro ex recs s e h
    simp [osFindByDateRange, h]

/-- Witness for C5's amended theorem at concrete inputs: an invalid start
date makes the range resolver raise. -/
theorem C5_date_validator_shape_only_witness :
    isValidDateFormat "bad" = false ∧
      neptuneFindByDateRange exclusiveG "bad" "2024-01-01" = none :=
  ⟨by decide,
    (C5_date_validator_shape_only.2.2.2.2.2.1 exclusiveG "bad" "2024-01-01" (by decide)).1⟩

theorem stepIn_nil (edges : List (Nat × Nat)) (lbl : List Nat) :
    stepIn edges lbl [] = [] := rfl

theorem tierDrop_nil (g : Graph) : tierDrop g [] = g := rfl

theorem sourceV_eq_nil {g : Graph} {pid : String}
    (hno : ∀ v ∈ g.sources, g.paper_id v ≠ pid) : sourceV g pid = [] := by
  rw [sourceV, List.filter_eq_nil_iff]
  intro v hv
  simp only [beq_iff_eq]
  exact hno v hv

theorem doc_traversals_nil {g : Graph} {pid : String} (hsv : sourceV g pid = []) :
    docChunks g pid = [] ∧ docTopics g pid = [] ∧ docStatements g pid = [] ∧
      docStatementsD g pid = [] ∧ reachedFacts g pid = [] ∧
      factsDelTrav g pid = [] ∧ entitiesDelTrav g pid = [] ∧
      connectedFacts g pid = 0 ∧ connectedEntities g pid = 0 := by
  have hc : docChunks g pid = [] := by rw [docChunks, hsv, stepIn_nil]
  have ht : docTopics g pid = [] := by rw [docTopics, hc, stepIn_nil]
  have hs : docStatements g pid = [] := by rw [docStatements, ht, stepIn_nil]
  have hsd : docStatementsD g pid = [] := by rw [docStatementsD, hs]; rfl
  have hrf : reachedFacts g pid = [] := by rw [reachedFacts, hsd, stepIn_nil]
  have hfd : factsDelTrav g pid = [] := by rw [factsDelTrav, hrf]; rfl
  have hed : entitiesDelTrav g pid = [] := by rw [entitiesDelTrav, hrf]; rfl
  have hcf : connectedFacts g pid = 0 := by rw [connectedFacts, hs, stepIn_nil]; rfl
  have hce : connectedEntities g pid = 0 := by rw [connectedEntities, hs, stepIn_nil]; rfl
  exact ⟨hc, ht, hs, hsd, hrf, hfd, hed, hcf, hce⟩

/-- C7: a non-empty document id matched by no Source vertex makes
`delete_document` a success no-op: the store is unchanged, no `.drop()` query
is ever submitted, and the report carries six zero deletion counts and zero
shared-node counts. -/
theorem C7_nonexistent_id_success_noop (g : Graph) (pid : String)
    (hne : pid ≠ "") (hno : ∀ v ∈ g.sources, g.paper_id v ≠ pid) :
    deleteDocument g pid false false =
      ⟨g, [],
        Except.ok
          { paper_id := pid, entities := 0, facts := 0, statements := 0
            topics := 0, chunks := 0, source := 0, shared_facts := 0
            shared_entities := 0 }⟩ := by
  have hsv : sourceV g pid = [] := sourceV_eq_nil hno
  obtain ⟨hc, ht, hs, hsd, hrf, hfd, hed, hcf, hce⟩ := doc_traversals_nil (g := g) hsv
  have h1 : delG1 g pid = g := by rw [delG1, hed, tierDrop_nil]
  have h2 : delG2 g pid = g := by rw [delG2, h1, hfd, tierDrop_nil]
  have h3 : delG3 g pid = g := by
    rw [delG3, h2, statementsDelTrav, hsd, tierDrop_nil]
  have h4 : delG4 g pid = g := by rw [delG4, h3, topicsDelTrav, ht, tierDrop_nil]
  have h5 : delG5 g pid = g := by rw [delG5, h4, chunksDelTrav, hc, tierDrop_nil]
  have h6 : delG6 g pid = g := by rw [delG6, h5, sourceDelTrav, hsv, tierDrop_nil]
  have hc1 : delCount1 g pid = 0 := by rw [delCount1, hed]; rfl
  have hc2 : delCount2 g pid = 0 := by rw [delCount2, h1, hfd]; rfl
  have hc3 : delCount3 g pid = 0 := by rw [delCount3, h2, statementsDelTrav, hsd]; rfl
  have hc4 : delCount4 g pid = 0 := by rw [delCount4, h3, topicsDelTrav, ht]; rfl
  have hc5 : delCount5 g pid = 0 := by rw [delCount5, h4, chunksDelTrav, hc]; rfl
  have hc6 : delCount6 g pid = 0 := by rw [delCount6, h5, sourceDelTrav, hsv]; rfl
  have hdrops : delDrops g pid = [] := by
    rw [delDrops, hc1, hc2, hc3, hc4, hc5, hc6]
    rfl
  have hout : deleteOutcome g pid false false =
      Except.ok
        { paper_id := pid, entities := 0, facts := 0, statements := 0
          topics := 0, chunks := 0, source := 0, shared_facts := 0
          shared_entities := 0 } := by
    have hred : deleteOutcome g pid false false =
        Except.ok
          { paper_id := pid, entities := delCount1 g pid, facts := delCount2 g pid
            statements := delCount3 g pid, topics := delCount4 g pid
            chunks := delCount5 g pid, source := delCount6 g pid
            shared_facts := (connectedFacts g pid : Int) - delCount2 g pid
            shared_entities := (connectedEntities g pid : Int) - delCount1 g pid } := rfl
    rw [hred, hcf, hce, hc1, hc2, hc3, hc4, hc5, hc6]
    rfl
  rw [deleteDocument, if_neg hne, h6, hdrops, hout]

/-- Witness for C7: `"zzz"` matches no Source of `exclusiveG`, and deleting
it is a success no-op. -/
theorem C7_nonexistent_id_success_noop_witness :
    ("zzz" ≠ "" ∧ ∀ v ∈ exclusiveG.sources, exclusiveG.paper_id v ≠ "zzz") ∧
      deleteDocument exclusiveG "zzz" false false =
        ⟨exclusiveG, [],
          Except.ok
            { paper_id := "zzz", entities := 0, facts := 0, statements := 0
              topics := 0, chunks := 0, source := 0, shared_facts := 0
              shared_entities := 0 }⟩ :=
  ⟨⟨by decide, by decide⟩,
    C7_nonexistent_id_success_noop exclusiveG "zzz" (by decide) (by decide)⟩

theorem batchDeleteDocuments_length (failF failE : Bool) (g : Graph) (ids : List String) :
    (batchDeleteDocuments failF failE g ids).2.length = ids.length := by
  induction ids generalizing g with
  | nil => rfl
  | cons p rest ih =>
      simp only [batchDeleteDocuments, List.length_cons]
      rw [ih]

theorem batchDeleteDocuments_entry (failF failE : Bool) (g : Graph) (ids : List String) :
    ∀ (i : Nat) (pid : String), ids[i]? = some pid →
      (batchDeleteDocuments failF failE g ids).2[i]? =
        some (mkBatchEntry pid
          (deleteDocument (batchDeleteDocuments failF failE g (ids.take i)).1
            pid failF failE).outcome) := by
  induction ids generalizing g with
  | nil =>
      intro i pid h
      simp at h
  | cons p rest ih =>
      intro i pid h
      cases i with
      | zero =>
          simp only [List.getElem?_cons_zero, Option.some.injEq] at h
          subst h
          simp only [batchDeleteDocuments, List.take_zero, List.getElem?_cons_zero]
      | succ i =>
          simp only [List.getElem?_cons_succ] at h
          simp only [batchDeleteDocuments, List.getElem?_cons_succ, List.take_succ_cons]
          exact ih (deleteDocument g p failF failE).graph i pid h

theorem osBatchDeleteDocuments_length (dd : String → Except String OSDelOutcome)
    (ids : List String) : (osBatchDeleteDocuments dd ids).length = ids.length := by
  unfold osBatchDeleteDocuments
  split
  · rename_i h
    rw [List.isEmpty_iff] at h
    rw [h]
    rfl
  · exact List.length_map _ _

theorem osBatchDeleteDocuments_entry (dd : String → Except String OSDelOutcome)
    (ids : List String) :
    ∀ (i : Nat) (pid : String), ids[i]? = some pid →
      (osBatchDeleteDocuments dd ids)[i]? =
        some (match dd pid with
          | .ok r => OSBatchEntry.ok r
          | .error e => OSBatchEntry.err pid e) := by
  intro i pid h
  unfold osBatchDeleteDocuments
  split
  · rename_i hempty
    rw [List.isEmpty_iff] at hempty
    subst hempty
    simp at h
  · rw [List.getElem?_map, h]
    rfl

/-- C8: `batch_delete_documents` returns exactly one result entry per input
id, in input order: the i-th entry is the success dict of deleting the i-th id
on the store state the previous ids left behind, or the error dict built from
the exception that id raised — which therefore never stops the remaining ids.
The same holds for the search client's batch, whose per-id outcome `dd`
abstracts `delete_document`. -/
theorem C8_batch_one_entry_per_id (failF failE : Bool) (g : Graph) (ids : List String)
    (dd : String → Except String OSDelOutcome) :
    (batchDeleteDocuments failF failE g ids).2.length = ids.length ∧
      (∀ (i : Nat) (pid : String), ids[i]? = some pid →
        (batchDeleteDocuments failF failE g ids).2[i]? =
          some (mkBatchEntry pid
            (deleteDocument (batchDeleteDocuments failF failE g (ids.take i)).1
              pid failF failE).outcome)) ∧
      (osBatchDeleteDocuments dd ids).length = ids.length ∧
      (∀ (i : Nat) (pid : String), ids[i]? = some pid →
        (osBatchDeleteDocuments dd ids)[i]? =
          some (match dd pid with
            | .ok r => OSBatchEntry.ok r
            | .error e => OSBatchEntry.err pid e)) :=
  ⟨batchDeleteDocuments_length failF failE g ids,
    batchDeleteDocuments_entry failF failE g ids,
    osBatchDeleteDocuments_length dd ids,
    osBatchDeleteDocuments_entry dd ids⟩

/-- Witness for C8: a batch over an empty (exception-raising) id and a real
one — the first becomes an error entry and the second is still deleted. -/
theorem C8_batch_one_entry_per_id_witness :
    (batchDeleteDocuments false false exclusiveG ["", "p1"]).2.length = 2 ∧
      (batchDeleteDocuments false false exclusiveG ["", "p1"]).2[0]? =
        some (mkBatchEntry ""
          (deleteDocument
            (batchDeleteDocuments false false exclusiveG (["", "p1"].take 0)).1
            "" false false).outcome) ∧
      (batchDeleteDocuments false false exclusiveG ["", "p1"]).2 =
        [BatchEntry.err "" "ValueError: 'paper_id' must not be empty",
          BatchEntry.ok
            { paper_id := "p1", entities := 0, facts := 0, statements := 1
              topics := 1, chunks := 1, source := 1, shared_facts := 1
              shared_entities := 1 }] :=
  ⟨(C8_batch_one_entry_per_id false false exclusiveG ["", "p1"]
      (fun _ => .ok (.noDocs ""))).1,
    (C8_batch_one_entry_per_id false false exclusiveG ["", "p1"]
      (fun _ => .ok (.noDocs ""))).2.1 0 "" rfl,
    by decide⟩

/-- C9: once the graph engine's range deletion has produced its result, the
orchestrator records, for each configured index independently, either that
index's own range-deletion result or the error dict built from its caught
exception — so a failing index never blocks another index and never alters
the graph result — and returns the payload with the graph result, one entry
per configured index in order, and the `"start to end"` string (`end`
defaulting to `start`). -/
theorem C9_cleaner_isolates_index_failures {α : Type} (g : Graph)
    (failF failE : Bool) (osRun : String → Except String α)
    (indexes : List String) (s : String) (e? : Option String) (nep : RangeOutcome)
    (hnep : neptuneDeleteByDateRange g failF failE s (e?.getD s) = some nep) :
    cleanerDeleteByDateRange g failF failE osRun indexes s e? =
      some { neptune := nep
             opensearch := indexes.map (fun idx => (idx, mkIdxEntry idx (osRun idx)))
             date_range := s ++ " to " ++ e?.getD s } ∧
      ∀ (i : Nat) (idx : String), indexes[i]? = some idx →
        (indexes.map (fun j => (j, mkIdxEntry j (osRun j))))[i]? =
          some (idx, mkIdxEntry idx (osRun idx)) := by
  constructor
  · cases e? with
    | none =>
        simp only [Option.getD] at hnep
        simp [cleanerDeleteByDateRange, hnep]
    | some x =>
        simp only [Option.getD] at hnep
        simp [cleanerDeleteByDateRange, hnep]
  · intro i idx h
    rw [List.getElem?_map, h]
    rfl

/-- Witness for C9: two configured indexes, the second failing; the first
still gets its own result, the graph result and the range string are intact. -/
theorem C9_cleaner_isolates_index_failures_witness :
    cleanerDeleteByDateRange exclusiveG false false
        (fun idx => if idx = "bad" then Except.error "boom" else Except.ok 1)
        ["chunk", "bad"] "2024-01-01" none =
      some { neptune := RangeOutcome.noDocs "2024-01-01 to 2024-01-01"
             opensearch := ["chunk", "bad"].map (fun idx =>
               (idx, mkIdxEntry idx
                 (if idx = "bad" then Except.error "boom" else Except.ok 1)))
             date_range := "2024-01-01 to 2024-01-01" } :=
  (C9_cleaner_isolates_index_failures exclusiveG false false
    (fun idx => if idx = "bad" then Except.error "boom" else Except.ok 1)
    ["chunk", "bad"] "2024-01-01" none (RangeOutcome.noDocs "2024-01-01 to 2024-01-01")
    (by decide)).1

/-- C10: for a non-empty paper id, the search client's `delete_document`
never raises: a failed search is returned as the error dict, an empty match
is the zero-deletion success, and per-record deletion failures still yield a
success dict whose `deleted` counts only the records actually removed while
`total` counts the records found. -/
theorem C10_os_delete_never_raises (search : Except String (List String))
    (delRec : String → Bool) (pid : String) (hne : pid ≠ "") :
    (∃ out, osDeleteDocument search delRec pid = .ok out) ∧
      (∀ msg, search = .error msg →
        osDeleteDocument search delRec pid = .ok (.errorDict pid msg)) ∧
      (search = .ok [] → osDeleteDocument search delRec pid = .ok (.noDocs pid)) ∧
      (∀ docIds, search = .ok docIds → docIds ≠ [] →
        osDeleteDocument search delRec pid =
          .ok (.success pid (docIds.countP delRec) docIds.length)) := by
  unfold osDeleteDocument
  rw [if_neg hne]
  refine ⟨?_, ?_, ?_, ?_⟩
  · cases search with
    | error e => exact ⟨.errorDict pid e, rfl⟩
    | ok ids =>
        cases ids with
        | nil => exact ⟨.noDocs pid, rfl⟩
        | cons a as => exact ⟨.success pid ((a :: as).countP delRec) (a :: as).length, rfl⟩
  · rintro msg rfl
    rfl
  · rintro rfl
    rfl
  · rintro ids rfl hne2
    cases ids with
    | nil => exact absurd rfl hne2
    | cons a as => rfl

/-- Witness for C10: two records found, only one deletable; the call returns
success with `deleted = 1`, `total = 2`. -/
theorem C10_os_delete_never_raises_witness :
    osDeleteDocument (.ok ["a", "b"]) (fun r => r == "a") "p1" =
      .ok (.success "p1" 1 2) :=
  ((C10_os_delete_never_raises (.ok ["a", "b"]) (fun r => r == "a") "p1"
      (by decide)).2.2.2 ["a", "b"] rfl (by decide)).trans (by decide)

end PaperBridge
